import Mathlib

/-!
Verification of the WiFi LED strip driver (`src/src/main.cpp`) for SMD 5050
strips.  The repository ships a single sketch; the channel classes
(`LedStrip`, `LedStripRGB`, `BtnHandler`) live in headers that are not part
of the repository snapshot, so their method semantics are modelled from the
specification (spec.md sections 4.2 and 4.4); every dispatch function
(`btnModeShortPressed`, `btnModeLongPressed`, `readPotValue`,
`color_mixer`, `getState`, `mqttCallback`, `loop`) is translated directly
from `main.cpp`.
-/

/-- Modes of the RGB channel group, from `LedStripRgbMode` (declared in
`LedStripRGB.h`, used throughout `main.cpp`): Normal, Strobe, Flash, Fade. -/
inductive LedStripRgbMode where
  | NORMAL
  | STROBE
  | FLASH
  | FADE
deriving DecidableEq, Repr

/-- Modelled from the spec: a `DimmableChannel` / `LedStrip` (spec section 4.2).
State is `\x7b isOn, intensity \x7d`; `turnOn`/`turnOff` only flip `isOn`,
`setIntensity` clamps to `[0,255]` and does not change `isOn`. The class body
is in `LedStrip.h`, which is not in `src/`. -/
structure LedStrip where
  isOn : Bool
  intensity : Nat
deriving DecidableEq, Repr

/-- Modelled from the spec: `turnOn` only flips `isOn`; intensity preserved. -/
def LedStrip.turnOn (s : LedStrip) : LedStrip :=
  { s with isOn := true }

/-- Modelled from the spec: `turnOff` only flips `isOn`; intensity preserved. -/
def LedStrip.turnOff (s : LedStrip) : LedStrip :=
  { s with isOn := false }

/-- Modelled from the spec: `setIntensity` clamps its input to `[0,255]` and
leaves `isOn` untouched. -/
def LedStrip.setIntensity (s : LedStrip) (v : Nat) : LedStrip :=
  { s with intensity := min v 255 }

/-- Modelled from the spec: the `RgbChannelGroup` / `LedStripRGB` state
(spec sections 3 and 4.4): on/off flag, mode, current 24-bit color, speed.
The animation phase is internal to `tick` and not needed by any claim.
The class body is in `LedStripRGB.h`, which is not in `src/`. -/
structure LedStripRGB where
  isOn : Bool
  mode : LedStripRgbMode
  color : Nat
  speed : Nat
deriving DecidableEq, Repr

/-- Modelled from the spec: `turnOn` only flips `isOn`. -/
def LedStripRGB.turnOn (s : LedStripRGB) : LedStripRGB :=
  { s with isOn := true }

/-- Modelled from the spec: `turnOff` only flips `isOn`. -/
def LedStripRGB.turnOff (s : LedStripRGB) : LedStripRGB :=
  { s with isOn := false }

/-- Modelled from the spec: `setColor` stores a 24-bit color; out-of-range
values are clamped (spec section 7). -/
def LedStripRGB.setColor (s : LedStripRGB) (c : Nat) : LedStripRGB :=
  { s with color := min c 16777215 }

/-- Modelled from the spec: `setMode` stores the mode. -/
def LedStripRGB.setMode (s : LedStripRGB) (m : LedStripRgbMode) : LedStripRGB :=
  { s with mode := m }

/-- Modelled from the spec: `nextMode` advances the cycle
NORMAL → STROBE → FLASH → FADE → NORMAL. -/
def LedStripRGB.nextMode (s : LedStripRGB) : LedStripRGB :=
  { s with mode :=
      match s.mode with
      | .NORMAL => .STROBE
      | .STROBE => .FLASH
      | .FLASH => .FADE
      | .FADE => .NORMAL }

/-- Modelled from the spec: `setSpeed` stores a 16-bit speed; out-of-range
values are clamped (spec section 7). -/
def LedStripRGB.setSpeed (s : LedStripRGB) (v : Nat) : LedStripRGB :=
  { s with speed := min v 65535 }

/-- Modelled from the spec: `getRGBColor` returns the value actually driven
to the channels, zero when the group is off (spec section 4.4). -/
def LedStripRGB.getRGBColor (s : LedStripRGB) : Nat :=
  if s.isOn then s.color else 0

/-- Modelled from the spec: `COLOR_WHITE`, the pure-white sentinel used as
`last_color`\x27s initial value and in the white-as-RGB step (declared in
`LedStripRGB.h`, not in `src/`). Pure white packs as `0xFFFFFF`. -/
def COLOR_WHITE : Nat := 16777215

/-- Modelled from the spec: `COLOR_DARKPURPLE`, the default color set at
startup (`DEFAULT_COLOR` in `main.cpp` line 146; the numeric value lives in
`LedStripRGB.h`, not in `src/`). Only membership in the 24-bit range matters
to any claim; a representative dark purple is used. -/
def COLOR_DARKPURPLE : Nat := 3152180

/-- `THRESHOLD_FOR_TURN_ON` from `main.cpp` line 128: hysteresis bound meant
to keep small voltage variations from turning on the light. -/
def THRESHOLD_FOR_TURN_ON : Nat := 100

/-- The global mutable state of the sketch that the claims touch: the white
channel `led_strip_w`, the RGB group `led_strip_rgb`, and the globals
`last_color` (line 147) and `last_pot_color_value` (line 150). -/
structure Sys where
  white : LedStrip
  rgb : LedStripRGB
  last_color : Nat
  last_pot_color_value : Nat
deriving DecidableEq, Repr

/-- The state right after `setup()` (lines 799-801): white on, RGB off,
RGB color set to the default; `last_color` starts as `COLOR_WHITE`
(line 147) and `last_pot_color_value` as 1 (line 150).  `setup()` calls
`turnOn` on a freshly constructed channel, whose intensity starts at 0
(spec section 3). -/
def initState : Sys :=
  { white := { isOn := true, intensity := 0 }
  , rgb := { isOn := false, mode := .NORMAL, color := min COLOR_DARKPURPLE 16777215, speed := 0 }
  , last_color := COLOR_WHITE
  , last_pot_color_value := 1 }

/-- `btnModeShortPressed` (`main.cpp` lines 503-537): ordered decision list
fired on a debounced short press.  The trailing `updateWidgets()` only emits
telemetry and is omitted. -/
def btnModeShortPressed (s : Sys) : Sys :=
  if s.white.isOn = false ∧ s.rgb.isOn = false then
    { s with white := s.white.turnOn }
  else if s.white.isOn = true ∧ s.rgb.isOn = false then
    { s with
      white := s.white.setIntensity 255
      , last_color := s.rgb.color
      , rgb := ((s.rgb.setColor COLOR_WHITE).setMode .NORMAL).turnOn }
  else if s.rgb.mode = .NORMAL ∧ s.rgb.color = COLOR_WHITE then
    { s with
      white := s.white.turnOff
      , rgb := (s.rgb.setColor s.last_color).turnOn }
  else if s.rgb.mode = .FADE then
    { s with
      white := s.white.turnOn
      , rgb := s.rgb.nextMode.turnOff }
  else
    { s with rgb := s.rgb.nextMode }

/-- `btnModeLongPressed` (`main.cpp` lines 551-556): turn the white channel
and the RGB group off.  The trailing `updateWidgets()` is telemetry only. -/
def btnModeLongPressed (s : Sys) : Sys :=
  { s with white := s.white.turnOff, rgb := s.rgb.turnOff }

/-- Low byte of a C++ integer after `& 0xFF`, two's-complement semantics for
negative values (used by `color_mixer`, lines 589-591). -/
def mask8 (x : Int) : Nat :=
  (Int.emod x 256).toNat

/-- `color_mixer` (`main.cpp` lines 562-593) translated with C++ integer
semantics: `uint16_t` input, intermediate arithmetic in `int` with division
truncating toward zero, reassignment to `input_value` converting back to
`uint16_t` (reduction mod 65536), and each component masked with `0xFF`
before packing as `0xRRGGBB`. -/
def color_mixer (input_value : Nat) : Nat :=
  if input_value < 341 then
    let iv : Nat := (input_value * 3) / 4
    mask8 (256 - (iv : Int)) * 65536 + mask8 (iv : Int) * 256 + mask8 1
  else if input_value < 682 then
    let iv : Nat := ((input_value - 341) * 3) / 4
    mask8 1 * 65536 + mask8 (256 - (iv : Int)) * 256 + mask8 (iv : Int)
  else
    let iv : Nat := (Int.emod (Int.tdiv (((input_value : Int) - 683) * 3) 4) 65536).toNat
    mask8 (iv : Int) * 65536 + mask8 1 * 256 + mask8 (256 - (iv : Int))

/-- `readPotValue` (`main.cpp` lines 604-644): quantize the raw reading by 4,
act only when the quantized value changed, and dispatch on the RGB group and
white channel state.  The inner `if` mirrors lines 636-640 including the
hysteresis comparison that runs after `last_pot_color_value` has already
been overwritten. -/
def readPotValue (new_pot_value : Nat) (s : Sys) : Sys :=
  if new_pot_value / 4 ≠ s.last_pot_color_value then
    let s1 : Sys := { s with last_pot_color_value := new_pot_value / 4 }
    if s1.rgb.isOn then
      match s1.rgb.mode with
      | .NORMAL => { s1 with rgb := s1.rgb.setColor (color_mixer new_pot_value) }
      | .STROBE => { s1 with rgb := s1.rgb.setColor (color_mixer new_pot_value) }
      | .FLASH => { s1 with rgb := s1.rgb.setSpeed new_pot_value }
      | .FADE => { s1 with rgb := s1.rgb.setSpeed new_pot_value }
    else if s1.white.isOn then
      { s1 with white := s1.white.setIntensity s1.last_pot_color_value }
    else
      let s2 : Sys := { s1 with white := (s1.white.setIntensity s1.last_pot_color_value).turnOn }
      if THRESHOLD_FOR_TURN_ON <
          (Int.natAbs ((new_pot_value / 4 : Nat) - (s2.last_pot_color_value : Int))) then
        { s2 with white := (s2.white.setIntensity s2.last_pot_color_value).turnOn }
      else
        s2
  else
    s

/-- Prefix test on character lists, mirroring Arduino `String::startsWith`
as used on the lowercased, trimmed payload in `mqttCallback`. -/
def payloadStartsWith : List Char → List Char → Bool
  | [], _ => true
  | _ :: _, [] => false
  | p :: ps, c :: cs => p == c && payloadStartsWith ps cs

/-- The `/rgb/mode` branch of `mqttCallback` (`main.cpp` lines 371-386),
applied to the already trimmed and lowercased payload: match one of the four
mode names by prefix, then unconditionally `led_strip_rgb.turnOn()`
(line 386). -/
def mqttRgbMode (payload : List Char) (s : Sys) : Sys :=
  let rgb1 :=
    if payloadStartsWith ['n','o','r','m','a','l'] payload then
      s.rgb.setMode .NORMAL
    else if payloadStartsWith ['s','t','r','o','b','e'] payload then
      s.rgb.setMode .STROBE
    else if payloadStartsWith ['f','l','a','s','h'] payload then
      s.rgb.setMode .FLASH
    else if payloadStartsWith ['f','a','d','e'] payload then
      s.rgb.setMode .FADE
    else
      s.rgb
  { s with rgb := rgb1.turnOn }

/-- Lowercase hexadecimal digit character for a value in `[0,15]`, as
produced by Arduino `String(value, HEX)`. -/
def hexChar (n : Nat) : Char :=
  if n < 10 then Char.ofNat (48 + n) else Char.ofNat (87 + n)

/-- Arduino `String(value, HEX)` for a byte value: unpadded lowercase hex,
one digit below 16, two digits otherwise, and `"0"` for zero. -/
def hexStr (n : Nat) : List Char :=
  if n < 16 then [hexChar n] else [hexChar (n / 16), hexChar (n % 16)]

/-- Red byte of a packed `0xRRGGBB` color, as `RGBColor.red`. -/
def redByte (c : Nat) : Nat := c / 65536 % 256

/-- Green byte of a packed `0xRRGGBB` color, as `RGBColor.green`. -/
def greenByte (c : Nat) : Nat := c / 256 % 256

/-- Blue byte of a packed `0xRRGGBB` color, as `RGBColor.blue`. -/
def blueByte (c : Nat) : Nat := c % 256

/-- The telemetry snapshot fields built by `getState`
(`main.cpp` lines 222-267). -/
structure TeleSnapshot where
  whiteState : List Char
  whiteIntensity : Nat
  rgbState : List Char
  rgbMode : List Char
  rgbColor : List Char
deriving DecidableEq, Repr

/-- `getState` (`main.cpp` lines 222-267): white state/intensity (intensity
reported as 0 when off), rgb state and mode (mode as the empty string when
off), and the color of `getRGBColor()` rendered as
`"#" + String(red,HEX) + String(green,HEX) + String(blue,HEX)`. -/
def getState (s : Sys) : TeleSnapshot :=
  let whitePart : List Char × Nat :=
    if s.white.isOn then (['O','N'], s.white.intensity) else (['O','F','F'], 0)
  let rgbPart : List Char × List Char :=
    if s.rgb.isOn then
      (['O','N'],
        match s.rgb.mode with
        | .NORMAL => ['N','O','R','M','A','L']
        | .STROBE => ['S','T','R','O','B','E']
        | .FLASH => ['F','L','A','S','H']
        | .FADE => ['F','A','D','E'])
    else
      (['O','F','F'], [])
  let c : Nat := s.rgb.getRGBColor
  { whiteState := whitePart.1
  , whiteIntensity := whitePart.2
  , rgbState := rgbPart.1
  , rgbMode := rgbPart.2
  , rgbColor := '#' :: (hexStr (redByte c) ++ hexStr (greenByte c) ++ hexStr (blueByte c)) }

/-- The observable actions of one `loop()` iteration. -/
inductive LoopStep where
  | serialLoop
  | readPot
  | btnLoop
  | rgbLoop
  | mqttMaintain
  | mqttLoop
  | mqttSendTele
  | blynkRun
  | delayStep
deriving DecidableEq, Repr

/-- The body of `loop()` (`main.cpp` lines 887-902) as the ordered list of
calls it makes each iteration.  The call `readPotValue()` at line 888 is
commented out in the source and therefore absent. -/
def loopBody : List LoopStep :=
  [ .serialLoop, .btnLoop, .rgbLoop, .mqttMaintain, .mqttLoop
  , .mqttSendTele, .blynkRun, .delayStep ]

/-- Test for the characters Arduino hex rendering can produce:
`0`-`9` and lowercase `a`-`f`. -/
def isHexDigitChar (ch : Char) : Bool :=
  (48 ≤ ch.toNat && ch.toNat ≤ 57) || (97 ≤ ch.toNat && ch.toNat ≤ 102)

theorem mask8_lt (x : Int) : mask8 x < 256 := by
  unfold mask8
  have h1 : 0 ≤ Int.emod x 256 := Int.emod_nonneg x (by decide)
  have h2 : Int.emod x 256 < 256 := Int.emod_lt_of_pos x (by decide)
  omega

theorem color_mixer_lt (v : Nat) : color_mixer v < 16777216 := by
  unfold color_mixer
  split
  · dsimp only
    have h1 := mask8_lt (256 - ((v * 3 / 4 : Nat) : Int))
    have h2 := mask8_lt (((v * 3 / 4 : Nat) : Int))
    have h3 := mask8_lt 1
    omega
  · split
    · dsimp only
      have h1 := mask8_lt (1 : Int)
      have h2 := mask8_lt (256 - (((v - 341) * 3 / 4 : Nat) : Int))
      have h3 := mask8_lt ((((v - 341) * 3 / 4 : Nat) : Int))
      omega
    · dsimp only
      have h1 := mask8_lt (((Int.emod (Int.tdiv (((v : Int) - 683) * 3) 4) 65536).toNat : Int))
      have h2 := mask8_lt (1 : Int)
      have h3 := mask8_lt (256 - ((Int.emod (Int.tdiv (((v : Int) - 683) * 3) 4) 65536).toNat : Int))
      omega

theorem hexChar_is_digit (n : Nat) (h : n < 16) : isHexDigitChar (hexChar n) = true := by
  interval_cases n <;> decide

theorem hexStr_chars (n : Nat) (h : n < 256) :
    ∀ ch ∈ hexStr n, isHexDigitChar ch = true := by
  intro ch hch
  unfold hexStr at hch
  split at hch
  · simp only [List.mem_singleton] at hch
    subst hch
    exact hexChar_is_digit n (by omega)
  · simp only [List.mem_cons, List.mem_singleton] at hch
    rcases hch with h1 | h1 | h1
    · subst h1; exact hexChar_is_digit (n / 16) (by omega)
    · subst h1; exact hexChar_is_digit (n % 16) (by omega)
    · cases h1

theorem hexStr_length (n : Nat) : (hexStr n).length = 1 ∨ (hexStr n).length = 2 := by
  unfold hexStr
  split <;> simp

/-- C1: starting from a state with the white channel on and the RGB group
off, two short presses leave the RGB group on in Normal mode with the color
it held before the first press (saved via `last_color` in the first press),
and the white channel off.  The bound on `color` is the 24-bit range of the
packed RGB value (spec section 3). -/
theorem shortPress_twice_from_whiteOn (s : Sys)
    (hw : s.white.isOn = true) (hr : s.rgb.isOn = false)
    (hc : s.rgb.color ≤ 16777215) :
    (btnModeShortPressed (btnModeShortPressed s)).rgb.isOn = true ∧
    (btnModeShortPressed (btnModeShortPressed s)).rgb.mode = LedStripRgbMode.NORMAL ∧
    (btnModeShortPressed (btnModeShortPressed s)).rgb.color = s.rgb.color ∧
    (btnModeShortPressed (btnModeShortPressed s)).white.isOn = false := by
  simp [btnModeShortPressed, hw, hr, LedStrip.setIntensity, LedStrip.turnOn,
    LedStrip.turnOff, LedStripRGB.setColor, LedStripRGB.setMode,
    LedStripRGB.turnOn, COLOR_WHITE]
  omega

/-- C1 witness: a concrete run of the two short presses from a white-on,
rgb-off state carrying a Strobe-mode color. -/
theorem shortPress_twice_from_whiteOn_witness :
    (btnModeShortPressed (btnModeShortPressed
        ⟨⟨true, 7⟩, ⟨false, .STROBE, 12345, 9⟩, 42, 3⟩)).rgb.isOn = true ∧
    (btnModeShortPressed (btnModeShortPressed
        ⟨⟨true, 7⟩, ⟨false, .STROBE, 12345, 9⟩, 42, 3⟩)).rgb.mode = LedStripRgbMode.NORMAL ∧
    (btnModeShortPressed (btnModeShortPressed
        ⟨⟨true, 7⟩, ⟨false, .STROBE, 12345, 9⟩, 42, 3⟩)).rgb.color = 12345 ∧
    (btnModeShortPressed (btnModeShortPressed
        ⟨⟨true, 7⟩, ⟨false, .STROBE, 12345, 9⟩, 42, 3⟩)).white.isOn = false :=
  shortPress_twice_from_whiteOn ⟨⟨true, 7⟩, ⟨false, .STROBE, 12345, 9⟩, 42, 3⟩
    rfl rfl (by decide)

/-- C2: `btnModeLongPressed` leaves the white channel and the RGB group off
from every starting configuration (any on/off states, mode, color). -/
theorem longPress_allOff (s : Sys) :
    (btnModeLongPressed s).white.isOn = false ∧
    (btnModeLongPressed s).rgb.isOn = false := by
  simp [btnModeLongPressed, LedStrip.turnOff, LedStripRGB.turnOff]

/-- C3: the body of `loop()` never samples the potentiometer — the
`readPotValue()` call at `main.cpp` line 888 is commented out — although the
debouncer step does come before the RGB animation step among the calls that
remain. -/
theorem loop_omits_pot_sampling :
    LoopStep.readPot ∉ loopBody ∧
    loopBody.indexOf LoopStep.btnLoop < loopBody.indexOf LoopStep.rgbLoop := by
  decide

/-- C4: `color_mixer 0` evaluates to `0x000001` (red byte 0, not 255,
because `(256 - 0) & 0xFF = 0`), while `color_mixer 1023` evaluates to
`0xFF0101`, which is close to red with no component stuck near zero. -/
theorem color_mixer_endpoints :
    color_mixer 0 = 1 ∧
    redByte (color_mixer 0) = 0 ∧
    greenByte (color_mixer 0) = 0 ∧
    blueByte (color_mixer 0) = 1 ∧
    color_mixer 1023 = 16711937 ∧
    redByte (color_mixer 1023) = 255 ∧
    greenByte (color_mixer 1023) = 1 ∧
    blueByte (color_mixer 1023) = 1 := by
  decide

/-- C5: `color_mixer` is not continuous at the segment boundary 341: the
green component jumps from 255 at input 340 to 0 at input 341 (because
`256 - 0` is masked with `0xFF` to 0), a step of 255. -/
theorem color_mixer_boundary_jump :
    greenByte (color_mixer 340) = 255 ∧
    greenByte (color_mixer 341) = 0 ∧
    color_mixer 340 = 130817 ∧
    color_mixer 341 = 65536 := by
  decide

/-- C6 counterexample: a payload naming no mode (here `"x"`) does not leave
the state unchanged — the handler still turns the RGB group on
(`main.cpp` line 386 runs unconditionally). -/
theorem mqttRgbMode_invalid_modifies_state :
    mqttRgbMode ['x'] initState ≠ initState ∧
    (mqttRgbMode ['x'] initState).rgb.isOn = true ∧
    initState.rgb.isOn = false := by
  decide

/-- C6 amended: on a payload matching none of the four mode names, the
`/rgb/mode` handler leaves the mode, color, speed and the whole white
channel unchanged, but unconditionally turns the RGB group on. -/
theorem mqttRgbMode_invalid_turns_on_only (payload : List Char) (s : Sys)
    (h1 : payloadStartsWith ['n','o','r','m','a','l'] payload = false)
    (h2 : payloadStartsWith ['s','t','r','o','b','e'] payload = false)
    (h3 : payloadStartsWith ['f','l','a','s','h'] payload = false)
    (h4 : payloadStartsWith ['f','a','d','e'] payload = false) :
    (mqttRgbMode payload s).rgb.mode = s.rgb.mode ∧
    (mqttRgbMode payload s).white = s.white ∧
    (mqttRgbMode payload s).rgb.isOn = true ∧
    (mqttRgbMode payload s).rgb.color = s.rgb.color ∧
    (mqttRgbMode payload s).rgb.speed = s.rgb.speed := by
  simp [mqttRgbMode, h1, h2, h3, h4, LedStripRGB.turnOn]

/-- C6 witness: the amended behavior on the concrete payload `"x"` from the
startup state. -/
theorem mqttRgbMode_invalid_turns_on_only_witness :
    (mqttRgbMode ['x'] initState).rgb.mode = initState.rgb.mode ∧
    (mqttRgbMode ['x'] initState).white = initState.white ∧
    (mqttRgbMode ['x'] initState).rgb.isOn = true ∧
    (mqttRgbMode ['x'] initState).rgb.color = initState.rgb.color ∧
    (mqttRgbMode ['x'] initState).rgb.speed = initState.rgb.speed :=
  mqttRgbMode_invalid_turns_on_only ['x'] initState (by decide) (by decide)
    (by decide) (by decide)

/-- C7: when the quantized reading changes, `readPotValue` recomputes the
color via `color_mixer` from the raw reading if the RGB group is on in
Normal or Strobe mode, updates the speed from the raw reading (color
untouched) if it is on in Flash or Fade mode, and otherwise, with the white
channel on, sets the white intensity to the quantized reading. -/
theorem readPotValue_dispatch (new_pot : Nat) (s : Sys)
    (hnew : new_pot ≤ 1023)
    (hch : new_pot / 4 ≠ s.last_pot_color_value) :
    (s.rgb.isOn = true →
      (s.rgb.mode = LedStripRgbMode.NORMAL ∨ s.rgb.mode = LedStripRgbMode.STROBE) →
      (readPotValue new_pot s).rgb.color = color_mixer new_pot) ∧
    (s.rgb.isOn = true →
      (s.rgb.mode = LedStripRgbMode.FLASH ∨ s.rgb.mode = LedStripRgbMode.FADE) →
      (readPotValue new_pot s).rgb.speed = new_pot ∧
      (readPotValue new_pot s).rgb.color = s.rgb.color) ∧
    (s.rgb.isOn = false → s.white.isOn = true →
      (readPotValue new_pot s).white.intensity = new_pot / 4) := by
  have hcm := color_mixer_lt new_pot
  refine ⟨?_, ?_, ?_⟩
  · intro hr hm
    rcases hm with hm | hm <;>
      simp [readPotValue, hch, hr, hm, LedStripRGB.setColor] <;> omega
  · intro hr hm
    rcases hm with hm | hm <;>
      simp [readPotValue, hch, hr, hm, LedStripRGB.setSpeed] <;> omega
  · intro hr hw
    simp [readPotValue, hch, hr, hw, LedStrip.setIntensity]
    omega

/-- C7 witness: a concrete reading of 500 with the RGB group on in Normal
mode recomputes the color from the raw reading. -/
theorem readPotValue_dispatch_witness :
    (readPotValue 500 ⟨⟨false, 0⟩, ⟨true, .NORMAL, 5, 5⟩, 0, 1⟩).rgb.color =
      color_mixer 500 :=
  (readPotValue_dispatch 500 ⟨⟨false, 0⟩, ⟨true, .NORMAL, 5, 5⟩, 0, 1⟩
    (by decide) (by decide)).1 rfl (Or.inl rfl)

/-- C10: when both channels are off and the quantized reading changed, the
white channel is turned on with the quantized intensity unconditionally,
and the hysteresis guard of lines 636-640 — evaluated after
`last_pot_color_value` has already been overwritten with the new quantized
reading — compares the reading with itself and is therefore false. -/
theorem readPotValue_allOff_guard_dead (new_pot : Nat) (s : Sys)
    (hnew : new_pot ≤ 1023)
    (hch : new_pot / 4 ≠ s.last_pot_color_value)
    (hr : s.rgb.isOn = false) (hw : s.white.isOn = false) :
    (readPotValue new_pot s).white.isOn = true ∧
    (readPotValue new_pot s).white.intensity = new_pot / 4 ∧
    ¬ (THRESHOLD_FOR_TURN_ON <
        Int.natAbs (((new_pot / 4 : Nat) : Int) - ((new_pot / 4 : Nat) : Int))) := by
  refine ⟨?_, ?_, by simp⟩
  · simp [readPotValue, hch, hr, hw, LedStrip.setIntensity, LedStrip.turnOn,
      THRESHOLD_FOR_TURN_ON]
  · simp [readPotValue, hch, hr, hw, LedStrip.setIntensity, LedStrip.turnOn,
      THRESHOLD_FOR_TURN_ON]
    omega

/-- C10 witness: a concrete reading of 800 from the all-off state turns the
white channel on at intensity 200. -/
theorem readPotValue_allOff_guard_dead_witness :
    (readPotValue 800 ⟨⟨false, 0⟩, ⟨false, .NORMAL, 5, 5⟩, 0, 1⟩).white.isOn = true ∧
    (readPotValue 800 ⟨⟨false, 0⟩, ⟨false, .NORMAL, 5, 5⟩, 0, 1⟩).white.intensity = 800 / 4 ∧
    ¬ (THRESHOLD_FOR_TURN_ON <
        Int.natAbs (((800 / 4 : Nat) : Int) - ((800 / 4 : Nat) : Int))) :=
  readPotValue_allOff_guard_dead 800 ⟨⟨false, 0⟩, ⟨false, .NORMAL, 5, 5⟩, 0, 1⟩
    (by decide) (by decide) rfl rfl

/-- C9: `color_mixer` is total on all 16-bit inputs and its result fits in
24 bits, with every unpacked byte in `[0,255]`. -/
theorem color_mixer_total_24bit (v : Nat) (_hv : v < 65536) :
    color_mixer v ≤ 16777215 ∧
    redByte (color_mixer v) ≤ 255 ∧
    greenByte (color_mixer v) ≤ 255 ∧
    blueByte (color_mixer v) ≤ 255 := by
  have h := color_mixer_lt v
  refine ⟨by omega, ?_, ?_, ?_⟩
  · unfold redByte; omega
  · unfold greenByte; omega
  · unfold blueByte; omega

/-- C9 witness: the bound at the out-of-scale input 40000. -/
theorem color_mixer_total_24bit_witness :
    40000 < 65536 ∧
    (color_mixer 40000 ≤ 16777215 ∧
     redByte (color_mixer 40000) ≤ 255 ∧
     greenByte (color_mixer 40000) ≤ 255 ∧
     blueByte (color_mixer 40000) ≤ 255) :=
  ⟨by decide, color_mixer_total_24bit 40000 (by decide)⟩

/-- C8 counterexample: at the startup state (white on, RGB off — the very
first reachable state), the color field of the snapshot is `"#000"`: four
characters, not `'#'` followed by exactly two hex digits per component,
because Arduino `String(value, HEX)` does not pad and `getRGBColor` is zero
while the group is off. -/
theorem getState_initState_color_three_digits :
    (getState initState).rgbColor = ['#', '0', '0', '0'] ∧
    (getState initState).rgbColor.length ≠ 7 := by
  decide

/-- C8 amended: the snapshot reports white intensity 0 whenever the white
channel is off and an empty mode string whenever the RGB group is off; the
color field is `'#'` followed by three unpadded lowercase hex renderings,
one or two digits per component, hence 4 to 7 characters in total. -/
theorem getState_report_shape (s : Sys) :
    (s.white.isOn = false → (getState s).whiteIntensity = 0) ∧
    (s.rgb.isOn = false → (getState s).rgbMode = []) ∧
    (getState s).rgbColor.head? = some '#' ∧
    (∀ ch ∈ (getState s).rgbColor.tail, isHexDigitChar ch = true) ∧
    4 ≤ (getState s).rgbColor.length ∧
    (getState s).rgbColor.length ≤ 7 := by
  refine ⟨?_, ?_, ?_, ?_, ?_, ?_⟩
  · intro h
    simp [getState, h]
  · intro h
    simp [getState, h]
  · simp [getState]
  · intro ch hch
    simp only [getState, List.tail_cons, List.mem_append] at hch
    rcases hch with (h | h) | h
    · exact hexStr_chars _ (Nat.mod_lt _ (by omega)) ch h
    · exact hexStr_chars _ (Nat.mod_lt _ (by omega)) ch h
    · exact hexStr_chars _ (Nat.mod_lt _ (by omega)) ch h
  · have h1 := hexStr_length (redByte s.rgb.getRGBColor)
    have h2 := hexStr_length (greenByte s.rgb.getRGBColor)
    have h3 := hexStr_length (blueByte s.rgb.getRGBColor)
    simp only [getState, List.length_cons, List.length_append]
    omega
  · have h1 := hexStr_length (redByte s.rgb.getRGBColor)
    have h2 := hexStr_length (greenByte s.rgb.getRGBColor)
    have h3 := hexStr_length (blueByte s.rgb.getRGBColor)
    simp only [getState, List.length_cons, List.length_append]
    omega

/-- C8 witness: the amended shape at a concrete state with both channels
off. -/
theorem getState_report_shape_witness :
    (getState ⟨⟨false, 5⟩, ⟨false, .FLASH, 300, 2⟩, 0, 1⟩).whiteIntensity = 0 ∧
    (getState ⟨⟨false, 5⟩, ⟨false, .FLASH, 300, 2⟩, 0, 1⟩).rgbMode = [] :=
  ⟨(getState_report_shape ⟨⟨false, 5⟩, ⟨false, .FLASH, 300, 2⟩, 0, 1⟩).1 rfl,
   (getState_report_shape ⟨⟨false, 5⟩, ⟨false, .FLASH, 300, 2⟩, 0, 1⟩).2.1 rfl⟩
